import Mathlib

/-!
Verification of the couch-continuum migration tool against its
natural-language specification.

The development shallowly embeds the tool's logic:
pure string/list computations are translated directly; fallible HTTP
calls are modelled by `Except` results, or by environment records that
record which external calls succeed and what the cluster reports; the
engine's `createReplica` / `replacePrimary` sequences become trace
generators producing the ordered list of administrative actions they
perform.  All definitions follow `index.js` (current revision) and
`lib/request.js`.
-/

namespace CouchContinuum

/-! ## Generic string helpers (JavaScript semantics) -/

/-- JavaScript `haystack.indexOf(needle) > -1`: does `haystack` contain
`needle` as a contiguous substring (over the character list)? -/
def containsSub (needle : List Char) : List Char → Bool
  | [] => needle.isEmpty
  | c :: rest => needle.isPrefixOf (c :: rest) || containsSub needle rest

/-- JavaScript truthiness of a possibly-absent string field:
`undefined` and the empty string are falsy. -/
def jsTruthy (o : Option String) : Bool :=
  match o with
  | none => false
  | some s => !s.isEmpty

/-- JavaScript `s.substr(1)` / `s.slice(1)`: drop the first character. -/
def strDrop1 (s : String) : String := ⟨s.data.drop 1⟩

/-- JavaScript `a < b` on strings: lexicographic comparison of
code units. -/
def strLtList : List Char → List Char → Bool
  | [], [] => false
  | [], _ :: _ => true
  | _ :: _, [] => false
  | a :: as, b :: bs =>
    if a.toNat < b.toNat then true
    else if b.toNat < a.toNat then false
    else strLtList as bs

/-- JavaScript `a < b` on strings. -/
def strLt (a b : String) : Bool := strLtList a.data b.data

/-- Discriminate the success of an `Except` computation (a JS async
function that either returns or throws). -/
def isOkB {ε α : Type} : Except ε α → Bool
  | Except.ok _ => true
  | Except.error _ => false

/-- The `TEMP_COPY_SUFFIX` constant of `index.js`. -/
def tempCopySuffix : String := "temp_copy_"

/-! ## Checkpoint store

`getCheckpoint` reads the checkpoint file, mapping a missing file
(`ENOENT`) to the default `'\u0000'`; `makeCheckpoint` writes the given
name; `removeCheckpoint` unlinks the file (tolerating absence).  The
file's state is modelled as `Option String` (present with content, or
absent). -/

abbrev CheckpointState := Option String

/-- The default returned by `getCheckpoint` when the file is absent:
the NUL-character string `'\u0000'`. -/
def defaultCheckpoint : String := "\u0000"

def getCheckpoint (s : CheckpointState) : String :=
  match s with
  | some k => k
  | none => defaultCheckpoint

def makeCheckpoint (k : String) (_ : CheckpointState) : CheckpointState := some k

def removeCheckpoint (_ : CheckpointState) : CheckpointState := none

/-! ## Database listing (`allDbs`, `getRemaining`)

`allDbs` filters the `_all_dbs` response; it is modelled as a function
of that response list.  JavaScript string `>` is lexicographic code-unit
comparison, modelled by Lean's `String.lt`. -/

/-- JavaScript `dbName[0] === '_'` (an empty name has `dbName[0] === undefined`,
which is not `'_'`). -/
def isSpecialDb (name : String) : Bool := name.data.head? = some '_'

/-- JavaScript `dbName.indexOf(TEMP_COPY_SUFFIX) > -1`. -/
def isReplicaDb (name : String) : Bool := containsSub tempCopySuffix.data name.data

/-- Translation of `CouchContinuum.allDbs`, as a function of the `_all_dbs` response. -/
def allDbs (response : List String) : List String :=
  response.filter (fun dbName => !isSpecialDb dbName && !isReplicaDb dbName)

/-- Translation of `CouchContinuum.getRemaining`, as a function of the `_all_dbs`
response and the checkpoint-file state:
`dbNames.filter((dbName) => dbName > lastDb)`. -/
def getRemaining (response : List String) (s : CheckpointState) : List String :=
  (allDbs response).filter (fun dbName => strLt (getCheckpoint s) dbName)

/-! ## Transport (`lib/request.js`, current revision)

The wrapper rejects with the raw callback error on a network failure;
on `statusCode >= 400` it rejects with an `Error` onto which the
request `options` and every field of the (parsed) body are copied; on
any other status it resolves with the body.  Bodies are modelled by
their CouchDB-relevant fields. -/

structure ReqOptions where
  url : String
  method : String
deriving DecidableEq, Repr

/-- A parsed JSON response body, restricted to the fields the tool
branches on (`error`, `reason`). -/
structure Body where
  error : Option String
  reason : Option String
deriving DecidableEq, Repr

structure HttpResponse where
  statusCode : Nat
  body : Body
deriving DecidableEq, Repr

/-- What the underlying `request` library hands to the callback. -/
inductive ReqOutcome where
  | netErr (msg : String)
  | response (r : HttpResponse)
deriving DecidableEq, Repr

/-- The promise's settlement. `rejectedHttp` carries the original
request options and the body's `error`/`reason` fields (the
`{ options, ...body }` merge) together with the raw body. -/
inductive ReqResult where
  | rejectedNet (msg : String)
  | rejectedHttp (options : ReqOptions) (error : Option String)
      (reason : Option String) (raw : Body)
  | resolved (body : Body)
deriving DecidableEq, Repr

/-- The `module.exports` wrapper of `lib/request.js` (current revision). -/
def request (options : ReqOptions) (o : ReqOutcome) : ReqResult :=
  match o with
  | ReqOutcome.netErr m => ReqResult.rejectedNet m
  | ReqOutcome.response r =>
    if 400 ≤ r.statusCode then
      ReqResult.rejectedHttp options r.body.error r.body.reason r.body
    else
      ReqResult.resolved r.body

/-! ## Availability marker (`_isAvailable`)

The sentinel fetch either yields the `_local/in-maintenance` document
(whose `down` field may be absent) or an error carrying the server's
`error` code (absent for a network-level failure). -/

structure ReqErr where
  errorField : Option String
deriving DecidableEq, Repr

structure Sentinel where
  down : Option Bool
deriving DecidableEq, Repr

/-- Translation of `CouchContinuum._isAvailable`, as a function of the sentinel
fetch's outcome.  `!down` on an absent field is `true` (JS `!undefined`). -/
def isAvailable (fetch : Except ReqErr Sentinel) : Except ReqErr Bool :=
  match fetch with
  | Except.ok doc => Except.ok (!doc.down.getD false)
  | Except.error e =>
    if e.errorField = some "not_found" then Except.ok true
    else Except.error e

/-! ## Database identities and URL resolution (constructor)

A resolved identity is the cluster host plus the database path.  The
cluster base URL's `href` always ends in `/`, so a bare database name
`name` resolves to pathname `basePath ++ encodeURIComponent(name)`
on the base host.  When no target is supplied, the target is derived
from the source by prefixing `temp_copy_` to the source's path (the
URL machinery restores the leading slash). -/

structure Url where
  host : String
  pathname : String
deriving DecidableEq, Repr

/-- Display/request form of an identity (scheme elided; the identity
is the host plus path). -/
def Url.href (u : Url) : String := u.host ++ u.pathname

/-- Hexadecimal digit (uppercase, as `encodeURIComponent` produces). -/
def hexDigit (n : Nat) : Char :=
  if n < 10 then Char.ofNat (48 + n) else Char.ofNat (55 + n)

/-- UTF-8 bytes of a character (codepoints below `0x80`, `0x800`,
`0x10000`, and the 4-byte case). -/
def utf8Bytes (c : Char) : List Nat :=
  let n := c.toNat
  if n < 128 then [n]
  else if n < 2048 then [192 + n / 64, 128 + n % 64]
  else if n < 65536 then [224 + n / 4096, 128 + (n / 64) % 64, 128 + n % 64]
  else [240 + n / 262144, 128 + (n / 4096) % 64, 128 + (n / 64) % 64, 128 + n % 64]

/-- The characters `encodeURIComponent` leaves unescaped:
alphanumerics and `- _ . ! ~ * ' ( )` (39 is the apostrophe). -/
def isUriUnreserved (c : Char) : Bool :=
  c.isAlphanum || c = '-' || c = '_' || c = '.' || c = '!' || c = '~' ||
    c = '*' || c.toNat = 39 || c = '(' || c = ')'

/-- JavaScript `encodeURIComponent`. -/
def encodeURIComponent (s : String) : String :=
  ⟨(s.data.map (fun c =>
      if isUriUnreserved c then [c]
      else (utf8Bytes c).map
        (fun b => ['%', hexDigit (b / 16), hexDigit (b % 16)]) |>.flatten)).flatten⟩

/-- Result of `urlParse`: a full URL (has a host) or a bare path
fragment (the `Invalid URL` fallback). -/
inductive Parsed where
  | url (u : Url)
  | fragment (pathname : String)
deriving DecidableEq, Repr

/-- Source resolution in the constructor: a parsed source with a host
is used as-is; a bare name is appended (URI-encoded) to the cluster
base URL, whose path `basePath` ends in a slash. -/
def resolveSource (host basePath : String) (source : Parsed) : Url :=
  match source with
  | Parsed.url u => u
  | Parsed.fragment name => ⟨host, basePath ++ encodeURIComponent name⟩

/-- Derived target (`target` not supplied): same host as the source,
path `temp_copy_` + source path without its leading slash; formatting
and re-parsing the URL restores the leading slash. -/
def deriveTarget (src : Url) : Url :=
  ⟨src.host, "/" ++ tempCopySuffix ++ strDrop1 src.pathname⟩

/-- Target resolution in the constructor. -/
def resolveTarget (host basePath : String) (src : Url) (target : Option Parsed) : Url :=
  match target with
  | some (Parsed.url u) => u
  | some (Parsed.fragment name) => ⟨host, basePath ++ encodeURIComponent name⟩
  | none => deriveTarget src

/-- The constructor's identity resolution: the pair
(resolved source, resolved target).  Beyond the presence asserts for
`couchUrl` and `source`, the constructor accepts every configuration. -/
def resolveIdentities (host basePath : String) (source : Parsed)
    (target : Option Parsed) : Url × Url :=
  let src := resolveSource host basePath source
  (src, resolveTarget host basePath src target)

/-! ## Usage guard (`_isInUse`, current revision)

The guard fetches `_active_tasks` and `_scheduler/jobs` and iterates
over the concatenation.  For each entry it builds the regular
expression ``new RegExp(`/${dbName}/`)`` (for database names free of
regex metacharacters this matches exactly the substring
`"/" ++ dbName ++ "/"`) and executes

    if (database) assert.strictEqual(re.test(database), true)
    assert.strictEqual(re.test(source), true)
    assert.strictEqual(re.test(target), true)

`re.test(undefined)` coerces `undefined` to the string `"undefined"`.
The surrounding try/catch only swallows `illegal_database_name`
request errors, which cannot occur once the two list responses are
given, so it is not modelled. -/

/-- A scheduler job or active task, restricted to the fields the guard
destructures. -/
structure ClusterTask where
  database : Option String
  source : Option String
  target : Option String
deriving DecidableEq, Repr

/-- JavaScript ``re.test(field)`` for ``re = new RegExp(`/${dbName}/`)``. -/
def refTest (dbName : String) (field : Option String) : Bool :=
  containsSub ("/" ++ dbName ++ "/").data (field.getD "undefined").data

/-- The per-entry assertions of `_isInUse`: `true` iff none of them
throws. -/
def isInUseEntryOk (dbName : String) (t : ClusterTask) : Bool :=
  (if jsTruthy t.database then refTest dbName t.database else true) &&
    refTest dbName t.source && refTest dbName t.target

/-- Translation of `CouchContinuum._isInUse`, as a function of the database name and
the two fetched lists (`jobs` first, as in `[...jobs, ...activeTasks]`). -/
def isInUse (dbName : String) (jobs activeTasks : List ClusterTask) :
    Except String Unit :=
  if (jobs ++ activeTasks).all (isInUseEntryOk dbName) then Except.ok ()
  else Except.error "assertion failed"

/-- The specification's notion of an entry referencing a database `D`:
`D` appears as the entry's source, target, or database field. -/
def referencesDb (dbName : String) (t : ClusterTask) : Bool :=
  refTest dbName t.database || refTest dbName t.source || refTest dbName t.target

/-! ## The migration engine

A `Continuum` holds the constructor-resolved fields used by
`createReplica` / `replacePrimary`.  Each engine run is modelled as a
trace generator: given an environment describing what the cluster
reports and which external calls succeed, it returns the ordered list
of administrative actions performed before termination, and whether
the run completed (no exception).  Progress-bar rendering, logging and
the settling delay are observational and produce no actions. -/

structure Continuum where
  source : Url
  target : Url
  interval : Nat
  q : Option Nat
  n : Option Nat
  placement : Option String
  filterTombstones : Bool
  replicateSecurity : Bool
  allowReplications : Bool
  continuous : Bool
deriving DecidableEq, Repr

/-- JavaScript `this.source.pathname.slice(1)`, the database name passed to the
usage guard and the checkpoint store. -/
def sourceDbName (c : Continuum) : String := strDrop1 c.source.pathname

/-- The administrative actions the engine performs against the cluster
and the checkpoint file. -/
inductive Action where
  | isInUseCheck
  | getDbInfo (url : String)
  | getUpdateSeq (url : String)
  | createDb (url : String)
  | destroyDb (url : String)
  | postReplicate (src tgt : String)
  | postReplicateContinuous (src tgt : String)
  | waitCompletion (src tgt : String)
  | getSecurity (url : String)
  | putSecurity (url : String)
  | setUnavailable (url : String)
  | setAvailable (url : String)
  | verifyReplica
  | makeCheckpointFile (name : String)
  | removeCheckpointFile
deriving DecidableEq, Repr

/-- A run is a sequence of attempted steps, each an action paired
with whether it succeeds (for a step carrying an assertion: whether
the call succeeds and the following assertion holds).  `execSteps`
records each attempted action; a failing step aborts the rest of the
sequence and makes the run fail. -/
def execSteps : List (Action × Bool) → List Action × Bool
  | [] => ([], true)
  | (a, ok) :: rest =>
    if ok then ((a :: (execSteps rest).1), (execSteps rest).2)
    else ([a], false)

/-- Outcomes of the external calls `_replicate` performs: the initial
read of the source's `doc_count` (`total`), the `_replicate` POST,
the `_waitForCompletion` poll, and the two `_security` calls. -/
structure ReplicateEnv where
  getOk : Bool
  total : Nat
  postOk : Bool
  waitOk : Bool
  secGetOk : Bool
  secPutOk : Bool
deriving DecidableEq, Repr

/-- The steps of `_replicate(source, target, selector)` (current
revision): read the source's `doc_count`; if it is zero, stop
(success); otherwise POST `_replicate`, await completion, and — when
`replicateSecurity` is set — read `this.source.href + '/_security'`
and write `this.target.href + '/_security'`.  Note that the security
copy uses the engine's own `source`/`target` fields, not the
`source`/`target` parameters of the call.  The progress-bar poller is
observational and contributes no step. -/
def replicateSteps (c : Continuum) (src tgt : Url) (e : ReplicateEnv) :
    List (Action × Bool) :=
  (Action.getDbInfo src.href, e.getOk) ::
  if e.total = 0 then []
  else
    (Action.postReplicate src.href tgt.href, e.postOk) ::
    (Action.waitCompletion src.href tgt.href, e.waitOk) ::
    (if c.replicateSecurity then
      [(Action.getSecurity c.source.href, e.secGetOk),
       (Action.putSecurity c.target.href, e.secPutOk)]
     else [])

/-- Translation of `_replicate`, as a trace generator. -/
def replicateRun (c : Continuum) (src tgt : Url) (e : ReplicateEnv) :
    List Action × Bool :=
  execSteps (replicateSteps c src tgt e)

/-- The usage-guard step shared by `createReplica` and
`replacePrimary`: skipped entirely when `allowReplications` is set,
otherwise the `_isInUse` call, which succeeds iff its assertions
hold. -/
def guardSteps (c : Continuum) (jobs activeTasks : List ClusterTask) :
    List (Action × Bool) :=
  if c.allowReplications then []
  else [(Action.isInUseCheck, isOkB (isInUse (sourceDbName c) jobs activeTasks))]

/-- Environment of a `replacePrimary` run: the two guard lists, the
document counts `_verifyReplica` reads, and the success of each
subsequent external call. -/
structure PrimaryEnv where
  jobs : List ClusterTask
  activeTasks : List ClusterTask
  srcCount : Nat
  tgtCount : Nat
  destroySrcOk : Bool
  createSrcOk : Bool
  setUnavailOk : Bool
  repl : ReplicateEnv
  destroyTgtOk : Bool
  setAvailOk : Bool
deriving Repr

/-- The steps of `replacePrimary()` (current revision), in source
order: usage guard (skipped when `allowReplications`),
`_verifyReplica` (succeeds iff the two `doc_count`s match), destroy
primary, recreate primary, settle delay (no action), set primary
unavailable, `_replicate(this.target, this.source)`, destroy replica,
set primary available. -/
def replacePrimarySteps (c : Continuum) (e : PrimaryEnv) : List (Action × Bool) :=
  guardSteps c e.jobs e.activeTasks ++
  [(Action.verifyReplica, decide (e.srcCount = e.tgtCount))] ++
  [(Action.destroyDb c.source.href, e.destroySrcOk),
   (Action.createDb c.source.href, e.createSrcOk),
   (Action.setUnavailable c.source.href, e.setUnavailOk)] ++
  replicateSteps c c.target c.source e.repl ++
  [(Action.destroyDb c.target.href, e.destroyTgtOk),
   (Action.setAvailable c.source.href, e.setAvailOk)]

/-- Translation of `replacePrimary()`, as a trace generator: the performed actions
and whether the run completed. -/
def replacePrimaryRun (c : Continuum) (e : PrimaryEnv) : List Action × Bool :=
  execSteps (replacePrimarySteps c e)

/-- Environment of a `createReplica` run: the guard lists, the two
update sequences read before and after replication, the document
counts read by `_verifyReplica`, and the success of each external
call. -/
structure ReplicaEnv where
  jobs : List ClusterTask
  activeTasks : List ClusterTask
  seq1 : Nat
  seq2 : Nat
  createTgtOk : Bool
  repl : ReplicateEnv
  continuousOk : Bool
  srcCount : Nat
  tgtCount : Nat
deriving Repr

/-- The steps of `createReplica()` (current revision), in source
order: usage guard (skipped when `allowReplications`), read `seq1`
(`_getUpdateSeq`), create the target database,
`_replicate(this.source, this.target, selector)`, the optional
continuous replication POST, read `seq2` followed by the assertion
`assert(lastSeq1 <= lastSeq2)`, and `_verifyReplica` (succeeds iff
the two `doc_count`s match). -/
def createReplicaSteps (c : Continuum) (e : ReplicaEnv) : List (Action × Bool) :=
  guardSteps c e.jobs e.activeTasks ++
  [(Action.getUpdateSeq c.source.href, true),
   (Action.createDb c.target.href, e.createTgtOk)] ++
  replicateSteps c c.source c.target e.repl ++
  (if c.continuous then
    [(Action.postReplicateContinuous c.source.href c.target.href, e.continuousOk)]
   else []) ++
  [(Action.getUpdateSeq c.source.href, decide (e.seq1 ≤ e.seq2)),
   (Action.verifyReplica, decide (e.srcCount = e.tgtCount))]

/-- Translation of `createReplica()`, as a trace generator. -/
def createReplicaRun (c : Continuum) (e : ReplicaEnv) : List Action × Bool :=
  execSteps (createReplicaSteps c e)

/-- Translation of `CouchContinuum.createReplicas`: run each engine's
`createReplica` in order, aborting on the first failure. -/
def createReplicas : List (Continuum × ReplicaEnv) → List Action
  | [] => []
  | (c, e) :: rest =>
    let r := createReplicaRun c e
    if r.2 then r.1 ++ createReplicas rest else r.1

/-- Translation of `CouchContinuum.replacePrimaries`: run each engine's
`replacePrimary` in order; after each success write the checkpoint
with that engine's source database name; after the loop remove the
checkpoint.  A failure propagates, skipping both the checkpoint write
and the final removal. -/
def replacePrimaries : List (Continuum × PrimaryEnv) → List Action
  | [] => [Action.removeCheckpointFile]
  | (c, e) :: rest =>
    let r := replacePrimaryRun c e
    if r.2 then
      r.1 ++ Action.makeCheckpointFile (sourceDbName c) :: replacePrimaries rest
    else r.1

/-- Does an action touch the checkpoint file? -/
def isCheckpointAction : Action → Bool
  | Action.makeCheckpointFile _ => true
  | Action.removeCheckpointFile => true
  | _ => false

/-! ## Concrete fixtures

A typical engine (source `mydb` on a single cluster, derived target)
and environments for successful runs, used to instantiate the
theorems below. -/

def cEx : Continuum :=
  { source := ⟨"localhost:5984", "/mydb"⟩
    target := ⟨"localhost:5984", "/temp_copy_mydb"⟩
    interval := 1000, q := some 4, n := none, placement := none
    filterTombstones := false, replicateSecurity := false
    allowReplications := false, continuous := false }

/-- The engine `cEx` with security replication enabled. -/
def cSec : Continuum := { cEx with replicateSecurity := true }

def rEnvOk : ReplicateEnv :=
  { getOk := true, total := 5, postOk := true, waitOk := true
    secGetOk := true, secPutOk := true }

/-- A `createReplica` environment in which the source's update
sequence advances from 5 to 7 between snapshot and verification and
every external call succeeds. -/
def eRep : ReplicaEnv :=
  { jobs := [], activeTasks := [], seq1 := 5, seq2 := 7, createTgtOk := true
    repl := rEnvOk, continuousOk := true, srcCount := 5, tgtCount := 5 }

/-- A fully successful `replacePrimary` environment with no
concurrent tasks. -/
def eP : PrimaryEnv :=
  { jobs := [], activeTasks := [], srcCount := 5, tgtCount := 5
    destroySrcOk := true, createSrcOk := true, setUnavailOk := true
    repl := rEnvOk, destroyTgtOk := true, setAvailOk := true }

/-- A replication task that does not reference `mydb` anywhere. -/
def taskOther : ClusterTask :=
  ⟨none, some "http://c/other-a/", some "http://c/other-b/"⟩

/-- A task that references `mydb` in its database, source and target
fields. -/
def taskMydb : ClusterTask :=
  ⟨some "shards/00-ff/mydb/", some "http://c/mydb/", some "http://c2/mydb/"⟩

end CouchContinuum

namespace CouchContinuum

/-! # Theorems

First, generic facts about the step executor: its trace only contains
attempted step actions; a run completes iff every step succeeds; and
execution distributes over concatenation of step lists (the second
list runs exactly when the first completed). -/

theorem execSteps_mem (l : List (Action × Bool)) :
    ∀ a ∈ (execSteps l).1, a ∈ l.map Prod.fst := by
  induction l with
  | nil => intro a ha; simp [execSteps] at ha
  | cons s rest ih =>
    rcases s with ⟨b, ok⟩
    intro a ha
    cases ok with
    | false => simp [execSteps] at ha; simp [ha]
    | true =>
      simp only [execSteps, if_pos] at ha
      rcases List.mem_cons.mp ha with rfl | hmem
      · simp
      · simp [ih a hmem]

theorem execSteps_ok (l : List (Action × Bool)) :
    (execSteps l).2 = l.all Prod.snd := by
  induction l with
  | nil => rfl
  | cons s rest ih =>
    rcases s with ⟨b, ok⟩
    cases ok <;> simp [execSteps, ih]

theorem execSteps_append (l1 l2 : List (Action × Bool)) :
    execSteps (l1 ++ l2) =
      if (execSteps l1).2 then
        ((execSteps l1).1 ++ (execSteps l2).1, (execSteps l2).2)
      else execSteps l1 := by
  induction l1 with
  | nil => simp [execSteps]
  | cons s rest ih =>
    rcases s with ⟨b, ok⟩
    cases ok with
    | false => simp [execSteps]
    | true =>
      by_cases h : (execSteps rest).2 = true <;>
        simp [execSteps, ih, h]

/-- If an action of the later steps `l2` was performed, every step of
the earlier `l1` succeeded (provided the action is not one of `l1`'s
own actions). -/
theorem execSteps_later_mem (l1 l2 : List (Action × Bool)) (a : Action)
    (ha : a ∈ (execSteps (l1 ++ l2)).1) (hnot : a ∉ l1.map Prod.fst) :
    (execSteps l1).2 = true ∧ a ∈ (execSteps l2).1 := by
  rw [execSteps_append] at ha
  by_cases h1 : (execSteps l1).2 = true
  · simp only [h1, if_true] at ha
    rcases List.mem_append.mp ha with h | h
    · exact absurd (execSteps_mem l1 a h) hnot
    · exact ⟨h1, h⟩
  · simp only [h1, if_false, Bool.false_eq_true] at ha
    exact absurd (execSteps_mem l1 a ha) hnot

/-- No step of a `replacePrimary` run touches the checkpoint file. -/
theorem replacePrimarySteps_no_checkpoint (c : Continuum) (e : PrimaryEnv) :
    ∀ a ∈ (replacePrimaryRun c e).1, isCheckpointAction a = false := by
  intro a ha
  have hmem := execSteps_mem _ a ha
  have hall : ((replacePrimarySteps c e).map Prod.fst).all
      (fun x => !isCheckpointAction x) = true := by
    cases hA : c.allowReplications <;> cases hS : c.replicateSecurity <;>
      cases ht : e.repl.total <;>
      simp [replacePrimarySteps, guardSteps, replicateSteps, hA, hS, ht,
        isCheckpointAction]
  simpa using List.all_eq_true.mp hall a hmem

/-- No step of a `createReplica` run touches the checkpoint file. -/
theorem createReplicaSteps_no_checkpoint (c : Continuum) (e : ReplicaEnv) :
    ∀ a ∈ (createReplicaRun c e).1, isCheckpointAction a = false := by
  intro a ha
  have hmem := execSteps_mem _ a ha
  have hall : ((createReplicaSteps c e).map Prod.fst).all
      (fun x => !isCheckpointAction x) = true := by
    cases hA : c.allowReplications <;> cases hS : c.replicateSecurity <;>
      cases hC : c.continuous <;> cases ht : e.repl.total <;>
      simp [createReplicaSteps, guardSteps, replicateSteps, hA, hS, hC, ht,
        isCheckpointAction]
  simpa using List.all_eq_true.mp hall a hmem

/-- C1 (code bug).  The claim states that `_isInUse(D)` fails iff
some task or job references `D` as source, target, or database.  The
current code asserts `re.test(...) === true` for every entry, so it
does the opposite: with a single job that references only other
databases it throws (although nothing references `mydb`), and with a
single job that references `mydb` in all three fields it returns
successfully (although `mydb` is in use). -/
theorem isInUse_divergence :
    (isOkB (isInUse "mydb" [taskOther] []) = false
      ∧ referencesDb "mydb" taskOther = false)
    ∧ (isOkB (isInUse "mydb" [taskMydb] []) = true
      ∧ referencesDb "mydb" taskMydb = true) := by decide

/-- C2 (code bug).  The claim states that `createReplica` fails
with a changed-primary condition whenever the update sequence
recorded after replication (`seq2`) exceeds the one recorded before
(`seq1`).  The code asserts `lastSeq1 <= lastSeq2`, which *passes* in
exactly that situation: with `seq1 = 5 < 7 = seq2` the run proceeds
to the count verification and completes successfully. -/
theorem createReplica_seq_advance :
    eRep.seq1 < eRep.seq2
    ∧ (createReplicaRun cEx eRep).2 = true
    ∧ Action.verifyReplica ∈ (createReplicaRun cEx eRep).1 := by decide

/-- C6 (code bug).  The claim states that `_replicate(src, tgt)`
with `replicateSecurity` copies `/_security` from `src` to `tgt`.  In
`replacePrimary`'s replica-to-primary pass the call is
`_replicate(this.target, this.source)`, and the code reads
`this.source/_security` and writes `this.target/_security`: the copy
runs from the pass's *target* (the recreated primary) to the pass's
*source* (the replica), the reverse of the claim. -/
theorem replicate_security_direction :
    (Action.getSecurity cSec.source.href
        ∈ (replicateRun cSec cSec.target cSec.source rEnvOk).1
      ∧ Action.putSecurity cSec.target.href
        ∈ (replicateRun cSec cSec.target cSec.source rEnvOk).1)
    ∧ Action.getSecurity cSec.target.href
        ∉ (replicateRun cSec cSec.target cSec.source rEnvOk).1
    ∧ Action.putSecurity cSec.source.href
        ∉ (replicateRun cSec cSec.target cSec.source rEnvOk).1 := by decide

/-- C7 counterexample.  A response with a success status code
(200) whose body carries an explicit error marker is *resolved* with
that body by the transport wrapper, not rejected as the claim
states. -/
theorem request_error_body_counterexample :
    request ⟨"http://localhost:5984/mydb", "GET"⟩
        (ReqOutcome.response ⟨200, ⟨some "conflict", some "conflict reason"⟩⟩)
      = ReqResult.resolved ⟨some "conflict", some "conflict reason"⟩
    ∧ (⟨some "conflict", some "conflict reason"⟩ : Body).error ≠ none := by decide

/-- C7 (amended).  The transport rejects with the raw error on a
network failure (a distinct kind), rejects with a typed failure
carrying the request options and the body's error/reason fields
exactly when the status code is at least 400, and otherwise resolves
with the parsed body — even when that body contains an error
marker. -/
theorem request_spec (options : ReqOptions) (o : ReqOutcome) :
    (∀ m, o = ReqOutcome.netErr m → request options o = ReqResult.rejectedNet m)
    ∧ (∀ r, o = ReqOutcome.response r → 400 ≤ r.statusCode →
        request options o
          = ReqResult.rejectedHttp options r.body.error r.body.reason r.body)
    ∧ (∀ r, o = ReqOutcome.response r → r.statusCode < 400 →
        request options o = ReqResult.resolved r.body) := by
  refine ⟨?_, ?_, ?_⟩
  · intro m hm; subst hm; rfl
  · intro r hr hs; subst hr; simp [request, hs]
  · intro r hr hs; subst hr; simp [request, Nat.not_le.mpr hs]

theorem request_spec_witness :
    request ⟨"http://localhost:5984/mydb", "GET"⟩
        (ReqOutcome.response ⟨404, ⟨some "not_found", some "missing"⟩⟩)
      = ReqResult.rejectedHttp ⟨"http://localhost:5984/mydb", "GET"⟩
          (some "not_found") (some "missing") ⟨some "not_found", some "missing"⟩ :=
  (request_spec ⟨"http://localhost:5984/mydb", "GET"⟩
      (ReqOutcome.response ⟨404, ⟨some "not_found", some "missing"⟩⟩)).2.1
    ⟨404, ⟨some "not_found", some "missing"⟩⟩ rfl (by decide)

/-- C8.  `_isAvailable` returns `true` when the sentinel fetch
fails with `not_found`, returns the negation of the sentinel's `down`
field when the fetch succeeds, and propagates any other fetch error
unchanged. -/
theorem isAvailable_spec :
    (∀ e : ReqErr, e.errorField = some "not_found" →
        isAvailable (Except.error e) = Except.ok true)
    ∧ (∀ b : Bool, isAvailable (Except.ok ⟨some b⟩) = Except.ok (!b))
    ∧ (∀ e : ReqErr, e.errorField ≠ some "not_found" →
        isAvailable (Except.error e) = Except.error e) := by
  refine ⟨?_, ?_, ?_⟩
  · intro e he; simp [isAvailable, he]
  · intro b; rfl
  · intro e he; simp [isAvailable, he]

theorem isAvailable_spec_witness :
    isAvailable (Except.error ⟨some "not_found"⟩) = Except.ok true
    ∧ isAvailable (Except.ok ⟨some true⟩) = Except.ok false
    ∧ isAvailable (Except.error ⟨some "unauthorized"⟩)
        = Except.error ⟨some "unauthorized"⟩ :=
  ⟨isAvailable_spec.1 ⟨some "not_found"⟩ rfl,
   isAvailable_spec.2.1 true,
   isAvailable_spec.2.2 ⟨some "unauthorized"⟩ (by decide)⟩

/-- C10.  The filtered `_all_dbs` list — and hence the
remaining-work set of a bulk run — never contains a database name
whose first character is `_`, nor one containing the substring
`temp_copy_`. -/
theorem allDbs_excludes (response : List String) (s : CheckpointState) (nm : String) :
    (nm ∈ allDbs response → isSpecialDb nm = false ∧ isReplicaDb nm = false)
    ∧ (nm ∈ getRemaining response s →
        isSpecialDb nm = false ∧ isReplicaDb nm = false) := by
  constructor
  · intro h
    have h2 := (List.mem_filter.mp h).2
    simp only [Bool.and_eq_true, Bool.not_eq_true'] at h2
    exact h2
  · intro h
    have h1 := (List.mem_filter.mp h).1
    have h2 := (List.mem_filter.mp h1).2
    simp only [Bool.and_eq_true, Bool.not_eq_true'] at h2
    exact h2

theorem allDbs_excludes_witness :
    isSpecialDb "mydb" = false ∧ isReplicaDb "mydb" = false :=
  (allDbs_excludes ["mydb", "_users", "xtemp_copy_y"] none "mydb").1 (by decide)

/-- Any checkpoint write occurring in a bulk `replacePrimaries` trace
names the source database of an engine whose `replacePrimary`
succeeded. -/
theorem replacePrimaries_mk_mem (l : List (Continuum × PrimaryEnv)) (nm : String) :
    Action.makeCheckpointFile nm ∈ replacePrimaries l →
    ∃ p ∈ l, (replacePrimaryRun p.1 p.2).2 = true ∧ sourceDbName p.1 = nm := by
  induction l with
  | nil => intro h; simp [replacePrimaries] at h
  | cons p rest ih =>
    rcases p with ⟨c, e⟩
    intro h
    simp only [replacePrimaries] at h
    by_cases hok : (replacePrimaryRun c e).2 = true
    · rw [if_pos hok] at h
      rcases List.mem_append.mp h with h1 | h2
      · have := replacePrimarySteps_no_checkpoint c e _ h1
        simp [isCheckpointAction] at this
      · rcases List.mem_cons.mp h2 with heq | h3
        · refine ⟨(c, e), List.mem_cons_self _ _, hok, ?_⟩
          injection heq with h'
          exact h'.symm
        · obtain ⟨q, hq, hq2, hq3⟩ := ih h3
          exact ⟨q, List.mem_cons_of_mem _ hq, hq2, hq3⟩
    · rw [if_neg hok] at h
      have := replacePrimarySteps_no_checkpoint c e _ h
      simp [isCheckpointAction] at this

/-- A bulk `createReplicas` pass never writes a checkpoint. -/
theorem createReplicas_no_checkpoint (l : List (Continuum × ReplicaEnv))
    (nm : String) : Action.makeCheckpointFile nm ∉ createReplicas l := by
  induction l with
  | nil => simp [createReplicas]
  | cons p rest ih =>
    rcases p with ⟨c, e⟩
    intro h
    simp only [createReplicas] at h
    by_cases hok : (createReplicaRun c e).2 = true
    · rw [if_pos hok] at h
      rcases List.mem_append.mp h with h1 | h2
      · have := createReplicaSteps_no_checkpoint c e _ h1
        simp [isCheckpointAction] at this
      · exact ih h2
    · rw [if_neg hok] at h
      have := createReplicaSteps_no_checkpoint c e _ h
      simp [isCheckpointAction] at this

/-- When every `replacePrimary` of a bulk run succeeds, the run's
final action removes the checkpoint. -/
theorem replacePrimaries_last (l : List (Continuum × PrimaryEnv))
    (h : ∀ p ∈ l, (replacePrimaryRun p.1 p.2).2 = true) :
    (replacePrimaries l).getLast? = some Action.removeCheckpointFile := by
  induction l with
  | nil => rfl
  | cons p rest ih =>
    rcases p with ⟨c, e⟩
    have hok : (replacePrimaryRun c e).2 = true := h (c, e) (List.mem_cons_self _ _)
    have hrest := ih (fun q hq => h q (List.mem_cons_of_mem _ hq))
    have hne : replacePrimaries rest ≠ [] := by
      intro hnil; rw [hnil] at hrest; simp at hrest
    simp only [replacePrimaries, if_pos hok]
    rw [List.getLast?_append_cons]
    calc (Action.makeCheckpointFile (sourceDbName c) :: replacePrimaries rest).getLast?
        = ([Action.makeCheckpointFile (sourceDbName c)] ++ replacePrimaries rest).getLast? := rfl
      _ = (replacePrimaries rest).getLast? := List.getLast?_append_of_ne_nil _ hne
      _ = some Action.removeCheckpointFile := hrest

/-- C4.  In a bulk run, (i) every checkpoint write in the trace
names the source database of an engine whose `replacePrimary`
succeeded; (ii) `createReplicas` never writes a checkpoint; (iii) a
successful `replacePrimary` is immediately followed by the checkpoint
write carrying that engine's source database name, while (iv) a
failed one ends the trace with no checkpoint write; and (v) when the
whole run completes the final action removes the checkpoint. -/
theorem replacePrimaries_checkpoint :
    (∀ (l : List (Continuum × PrimaryEnv)) (nm : String),
        Action.makeCheckpointFile nm ∈ replacePrimaries l →
        ∃ p ∈ l, (replacePrimaryRun p.1 p.2).2 = true ∧ sourceDbName p.1 = nm)
    ∧ (∀ (l : List (Continuum × ReplicaEnv)) (nm : String),
        Action.makeCheckpointFile nm ∉ createReplicas l)
    ∧ (∀ (c : Continuum) (e : PrimaryEnv) (rest : List (Continuum × PrimaryEnv)),
        (replacePrimaryRun c e).2 = true →
        replacePrimaries ((c, e) :: rest) =
          (replacePrimaryRun c e).1 ++
            Action.makeCheckpointFile (sourceDbName c) :: replacePrimaries rest)
    ∧ (∀ (c : Continuum) (e : PrimaryEnv) (rest : List (Continuum × PrimaryEnv)),
        (replacePrimaryRun c e).2 = false →
        replacePrimaries ((c, e) :: rest) = (replacePrimaryRun c e).1)
    ∧ (∀ l : List (Continuum × PrimaryEnv),
        (∀ p ∈ l, (replacePrimaryRun p.1 p.2).2 = true) →
        (replacePrimaries l).getLast? = some Action.removeCheckpointFile) := by
  refine ⟨replacePrimaries_mk_mem, createReplicas_no_checkpoint, ?_, ?_,
    replacePrimaries_last⟩
  · intro c e rest hok
    simp only [replacePrimaries, if_pos hok]
  · intro c e rest hfail
    simp only [replacePrimaries]
    rw [if_neg (by simp [hfail])]

theorem replacePrimaries_checkpoint_witness :
    ∃ p ∈ [(cEx, eP)],
      (replacePrimaryRun p.1 p.2).2 = true ∧ sourceDbName p.1 = "mydb" :=
  replacePrimaries_checkpoint.1 [(cEx, eP)] "mydb" (by decide)

/-- C5 counterexample.  After `removeCheckpoint`, `getCheckpoint`
returns `'\u0000'`, which is not the lowest possible sort key — the
empty string sorts strictly below it — and a database named
`'\u0000'` itself would be filtered out of the remaining set. -/
theorem checkpoint_default_counterexample :
    strLt "" (getCheckpoint (removeCheckpoint (some "mydb"))) = true
    ∧ getRemaining ["\u0000"] (removeCheckpoint (some "mydb")) = [] := by decide

/-- C5 (amended).  `makeCheckpoint k` followed by `getCheckpoint`
returns `k`; the remaining set after checkpoint `k` is exactly the
elements sorting strictly after `k`; `removeCheckpoint` followed by
`getCheckpoint` returns the default `'\u0000'`, so nothing is
filtered from a list of names that all sort strictly above
`'\u0000'` (as every valid database name does).  `all` ranges over
lists of ordinary database names (those `allDbs` retains). -/
theorem checkpoint_roundtrip (k : String) (s : CheckpointState) (all : List String)
    (hclean : allDbs all = all) (hvalid : ∀ d ∈ all, strLt defaultCheckpoint d = true) :
    getCheckpoint (makeCheckpoint k s) = k
    ∧ getRemaining all (makeCheckpoint k s) = all.filter (fun d => strLt k d)
    ∧ getCheckpoint (removeCheckpoint s) = defaultCheckpoint
    ∧ getRemaining all (removeCheckpoint s) = all := by
  refine ⟨rfl, ?_, rfl, ?_⟩
  · simp only [getRemaining, hclean, makeCheckpoint, getCheckpoint]
  · simp only [getRemaining, hclean, removeCheckpoint, getCheckpoint]
    exact List.filter_eq_self.mpr hvalid

theorem checkpoint_roundtrip_witness :
    getCheckpoint (makeCheckpoint "beta" none) = "beta"
    ∧ getRemaining ["alpha", "gamma"] (makeCheckpoint "beta" none)
        = (["alpha", "gamma"].filter (fun d => strLt "beta" d))
    ∧ getCheckpoint (removeCheckpoint none) = defaultCheckpoint
    ∧ getRemaining ["alpha", "gamma"] (removeCheckpoint none) = ["alpha", "gamma"] :=
  checkpoint_roundtrip "beta" none ["alpha", "gamma"] (by decide) (by decide)

/-- C9 counterexample.  The constructor accepts an explicitly
supplied target equal to the source (its asserts only require
`couchUrl` and `source` to be present): with source `mydb` and target
`mydb` on the same cluster, the resolved identities coincide. -/
theorem source_target_identity_counterexample :
    (resolveIdentities "localhost:5984" "/" (Parsed.fragment "mydb")
        (some (Parsed.fragment "mydb"))).1 =
      (resolveIdentities "localhost:5984" "/" (Parsed.fragment "mydb")
        (some (Parsed.fragment "mydb"))).2 := by decide

/-- C9 (amended).  When no target is supplied — the derived
`temp_copy_` target — the resolved source and target identities are
never equal, for every cluster URL and source; only an explicitly
supplied target can coincide with the source. -/
theorem derived_target_distinct (host basePath : String) (source : Parsed) :
    (resolveIdentities host basePath source none).1 ≠
      (resolveIdentities host basePath source none).2 := by
  intro h
  have hpath := congrArg Url.pathname h
  simp only [resolveIdentities, resolveTarget, deriveTarget] at hpath
  have hdata := congrArg String.data hpath
  simp only [String.data_append, strDrop1] at hdata
  have hlen := congrArg List.length hdata
  have h10 : tempCopySuffix.data.length = 10 := rfl
  have h1 : ("/" : String).data.length = 1 := rfl
  simp only [List.length_append, List.length_drop, h10, h1] at hlen
  omega

theorem derived_target_distinct_witness :
    (resolveIdentities "localhost:5984" "/" (Parsed.fragment "mydb") none).1 ≠
      (resolveIdentities "localhost:5984" "/" (Parsed.fragment "mydb") none).2 :=
  derived_target_distinct "localhost:5984" "/" (Parsed.fragment "mydb")

/-- C3.  In every `replacePrimary` run, the destroy of the source
database is reached only if the document counts of source and target
matched, and — unless `allowReplications` was requested — only if the
usage guard call returned successfully; a failure of either check
ends the trace before the destroy step. -/
theorem replacePrimary_destroy_guarded (c : Continuum) (e : PrimaryEnv)
    (h : Action.destroyDb c.source.href ∈ (replacePrimaryRun c e).1) :
    e.srcCount = e.tgtCount
    ∧ (c.allowReplications = false →
        isOkB (isInUse (sourceDbName c) e.jobs e.activeTasks) = true) := by
  have hsplit : replacePrimarySteps c e =
      (guardSteps c e.jobs e.activeTasks ++
        [(Action.verifyReplica, decide (e.srcCount = e.tgtCount))]) ++
      ([(Action.destroyDb c.source.href, e.destroySrcOk),
        (Action.createDb c.source.href, e.createSrcOk),
        (Action.setUnavailable c.source.href, e.setUnavailOk)] ++
       replicateSteps c c.target c.source e.repl ++
       [(Action.destroyDb c.target.href, e.destroyTgtOk),
        (Action.setAvailable c.source.href, e.setAvailOk)]) := by
    simp only [replacePrimarySteps, List.append_assoc]
  simp only [replacePrimaryRun, hsplit] at h
  have hnot : Action.destroyDb c.source.href ∉
      ((guardSteps c e.jobs e.activeTasks ++
        [(Action.verifyReplica, decide (e.srcCount = e.tgtCount))]).map Prod.fst) := by
    cases hA : c.allowReplications <;> simp [guardSteps, hA]
  have hok := (execSteps_later_mem _ _ _ h hnot).1
  rw [execSteps_ok] at hok
  simp only [List.all_append, List.all_cons, List.all_nil,
    Bool.and_eq_true, Bool.and_true] at hok
  obtain ⟨hg, hv⟩ := hok
  refine ⟨of_decide_eq_true hv, fun hA => ?_⟩
  simpa [guardSteps, hA] using hg

theorem replacePrimary_destroy_guarded_witness :
    eP.srcCount = eP.tgtCount
    ∧ (cEx.allowReplications = false →
        isOkB (isInUse (sourceDbName cEx) eP.jobs eP.activeTasks) = true) :=
  replacePrimary_destroy_guarded cEx eP (by decide)


end CouchContinuum
